import Mathlib

/-!
Verification of the varianteq derive-macro generator (src/lib.rs).

The source is a single compile-time transform: `derive` takes a parsed
type declaration (`DeriveInput` from the host parser), checks that its
`data` is an enum, splits the generics with `split_for_impl`, and emits a
token stream with two impls: a `PartialEq` impl whose `eq` compares
`::std::mem::discriminant(self)` with `::std::mem::discriminant(other)`,
and an empty `Eq` marker impl.  The public entry point
`varianteq_derive` parses its token stream with `parse2(..).unwrap()`
and forwards to `derive`.

The embedding below mirrors that structure: the parser-owned input data
model, the generics split, the emitted fragment (as structured impls with
a small expression AST for the generated `eq` body), and an evaluator
giving the runtime semantics of that body at an arbitrary instantiation
of the subject type.
-/

namespace VariantEq

/-- Generic parameters of the subject declaration, mirroring the three
kinds in the host representation (syn `GenericParam`): lifetimes, type
parameters and const parameters, each carrying its bounds (resp. its
type) verbatim as token strings. -/
inductive GenericParam : Type
  | lifetime (name : String) (bounds : List String)
  | typeParam (name : String) (bounds : List String)
  | constParam (name : String) (ty : String)
  deriving DecidableEq

/-- The bare name of a generic parameter, as it appears in argument
position (the `ty_generics` view drops bounds and keeps only names). -/
def GenericParam.argName : GenericParam → String
  | .lifetime n _ => n
  | .typeParam n _ => n
  | .constParam n _ => n

/-- The generics of a declaration: an ordered parameter list plus an
optional trailing where-clause (its predicates kept verbatim). -/
structure Generics where
  params : List GenericParam
  whereClause : Option (List String)
  deriving DecidableEq

/-- Embedding of syn `Generics::split_for_impl`: the three-way split into
the impl parameter list (parameters with their bounds, in order), the
type-argument list (bare parameter names, in order), and the trailing
where-clause, all taken from the declaration unchanged. -/
def Generics.split_for_impl (g : Generics) :
    List GenericParam × List String × Option (List String) :=
  (g.params, g.params.map GenericParam.argName, g.whereClause)

/-- The field shape of a variant or record body: unit, tuple-style
unnamed fields, or named fields.  Field types are carried as token
strings; the generator never reads them. -/
inductive Fields : Type
  | unit
  | unnamed (tys : List String)
  | named (fs : List (String × String))
  deriving DecidableEq

/-- One variant of an enum declaration: a name and a field shape. -/
structure Variant where
  name : String
  fields : Fields
  deriving DecidableEq

/-- The body of a declaration, mirroring syn `Data`: an enum with its
variants, a struct with its fields, or an untagged union. -/
inductive Data : Type
  | enumData (variants : List Variant)
  | structData (fs : Fields)
  | unionData (fs : List (String × String))
  deriving DecidableEq

/-- Whether the declaration body is an enum, the discrimination the
source performs with `match item.data { Data::Enum(_) => .. }`. -/
def Data.isEnum : Data → Bool
  | .enumData _ => true
  | _ => false

/-- The parsed input declaration handed over by the collaborator parser,
mirroring syn `DeriveInput`: identifier, generics, body. -/
structure DeriveInput where
  ident : String
  generics : Generics
  data : Data
  deriving DecidableEq

/-- The two operands available to the generated `eq` function. -/
inductive Operand : Type
  | selfOp
  | otherOp
  deriving DecidableEq

/-- Expressions the emitted `eq` body could be built from: taking the
discriminant of an operand, reading a payload field of an operand, and
an equality comparison of two subexpressions. -/
inductive EqExpr : Type
  | discriminantOf (o : Operand)
  | fieldOf (o : Operand) (i : Nat)
  | eqCmp (l r : EqExpr)
  deriving DecidableEq

/-- A runtime value of the subject enum type at an instantiation whose
field type is `α`: the variant tag (the discriminant) plus the payload
carried by the fields. -/
structure EnumValue (α : Type) where
  tag : Nat
  fields : List α

/-- Embedding of `::std::mem::discriminant`: the variant tag of a value,
independent of the payload. -/
def discriminant {α : Type} (v : EnumValue α) : Nat := v.tag

/-- Intermediate values produced while evaluating an `EqExpr`. -/
inductive Value (α : Type) : Type
  | discr (tag : Nat)
  | fieldVal (a : α)
  | boolVal (b : Bool)

/-- Resolve an operand against the two arguments of `eq`. -/
def Operand.pick {α : Type} : Operand → EnumValue α → EnumValue α → EnumValue α
  | .selfOp, s, _ => s
  | .otherOp, _, o => o

/-- Equality on intermediate values.  Discriminants compare as naturals
(what `mem::discriminant` equality provides) and booleans compare
decidably; payload field values do NOT compare, because the
instantiation `α` carries no comparison capability. -/
def valueEq {α : Type} : Value α → Value α → Option Bool
  | .discr m, .discr n => some (m == n)
  | .boolVal a, .boolVal b => some (a == b)
  | _, _ => none

/-- Evaluate an `eq`-body expression against the two operands.  Field
reads return the payload entry when it exists; a comparison succeeds
only when `valueEq` is defined on its operands. -/
def evalEqExpr {α : Type} : EqExpr → EnumValue α → EnumValue α → Option (Value α)
  | .discriminantOf o, s, t => some (Value.discr (discriminant (o.pick s t)))
  | .fieldOf o i, s, t => (List.get? (Operand.pick o s t).fields i).map Value.fieldVal
  | .eqCmp l r, s, t => do
      let lv ← evalEqExpr l s t
      let rv ← evalEqExpr r s t
      let b ← valueEq lv rv
      pure (Value.boolVal b)

/-- The boolean an `eq` body returns, when it evaluates to a boolean. -/
def evalAsBool {α : Type} (e : EqExpr) (s t : EnumValue α) : Option Bool :=
  match evalEqExpr e s t with
  | some (Value.boolVal b) => some b
  | _ => none

/-- The body of the generated `fn eq` exactly as the source emits it:
`::std::mem::discriminant(self) == ::std::mem::discriminant(other)`. -/
def eqBody : EqExpr :=
  EqExpr.eqCmp (EqExpr.discriminantOf Operand.selfOp)
    (EqExpr.discriminantOf Operand.otherOp)

/-- A reference to the subject type as it appears after `for` in the
emitted impls: the identifier with the type arguments re-attached. -/
structure TypeRef where
  ident : String
  args : List String
  deriving DecidableEq

/-- The body of an emitted impl: the `PartialEq` impl holds the single
`fn eq`, the `Eq` impl is an empty marker. -/
inductive ImplBody : Type
  | eqFn (body : EqExpr)
  | emptyMarker
  deriving DecidableEq

/-- One emitted impl block: its generic parameter list, the trait being
implemented, the subject type reference, the trailing where-clause, and
its body. -/
structure Impl where
  implGenerics : List GenericParam
  traitName : String
  subject : TypeRef
  whereClause : Option (List String)
  body : ImplBody
  deriving DecidableEq

/-- The token stream produced by the `quote!` block of `derive`: two
impls (`PartialEq` with the discriminant-comparing `eq`, then the empty
`Eq` marker), both spliced with the same `impl_generics`, subject ident,
`ty_generics` and `where_clause` from `split_for_impl`. -/
def quoteOutput (ident : String) (g : Generics) : List Impl :=
  [ { implGenerics := g.split_for_impl.1
      traitName := "PartialEq"
      subject := { ident := ident, args := g.split_for_impl.2.1 }
      whereClause := g.split_for_impl.2.2
      body := ImplBody.eqFn eqBody }
  , { implGenerics := g.split_for_impl.1
      traitName := "Eq"
      subject := { ident := ident, args := g.split_for_impl.2.1 }
      whereClause := g.split_for_impl.2.2
      body := ImplBody.emptyMarker } ]

/-- The sole failure of `derive`.  The source realizes it with the
`unimplemented!` macro, i.e. by panicking with the given message; this
is the condition the specification names `UnsupportedKind`.  The
constructor name records the mechanism: a panic, not a returned error
value. -/
inductive GenerationError : Type
  | unimplementedPanic (msg : String)
  deriving DecidableEq

/-- Embedding of `derive` from src/lib.rs: match on `item.data`; for an
enum, emit the quote output built from the identifier and the split
generics; for anything else, abort via `unimplemented!` with the message
the source hard-codes. -/
def derive (item : DeriveInput) : Except GenerationError (List Impl) :=
  match item.data with
  | Data.enumData _ => Except.ok (quoteOutput item.ident item.generics)
  | _ => Except.error (GenerationError.unimplementedPanic
      "#[derive(VariantEq)] is only defined for enums")

/-- Failures observable at the public entry point: the panic of the
`unwrap` on a failed parse, or a failure propagated from `derive`. -/
inductive EntryError : Type
  | unwrapPanic
  | generation (e : GenerationError)
  deriving DecidableEq

/-- Embedding of the entry point `varianteq_derive`: parse the token
stream with the collaborator parser (`parse2`, modelled as an arbitrary
function into `Option DeriveInput` since parsing is externally owned),
`unwrap` the result — panicking when the parse failed — and forward the
parsed declaration to `derive`. -/
def varianteq_derive {σ : Type} (parse2 : σ → Option DeriveInput) (tokens : σ) :
    Except EntryError (List Impl) :=
  match parse2 tokens with
  | none => Except.error EntryError.unwrapPanic
  | some input =>
    match derive input with
    | Except.ok frag => Except.ok frag
    | Except.error e => Except.error (EntryError.generation e)

/-- The `eq` body carried by a fragment: the body of the `fn eq` of its
first impl, when present. -/
def fragmentEqBody : List Impl → Option EqExpr
  | [] => none
  | (i :: _) =>
    match i.body with
    | ImplBody.eqFn b => some b
    | ImplBody.emptyMarker => none

/-- Whether generation succeeds on a declaration (returns a fragment
rather than failing). -/
def generationSucceeds (d : DeriveInput) : Bool :=
  match derive d with
  | Except.ok _ => true
  | Except.error _ => false

/-- The enum `E { A(i32), B(i32), C(u32, bool) }` from the crate's own
doc example. -/
def enumE : DeriveInput :=
  { ident := "E"
    generics := { params := [], whereClause := none }
    data := Data.enumData
      [ { name := "A", fields := Fields.unnamed ["i32"] }
      , { name := "B", fields := Fields.unnamed ["i32"] }
      , { name := "C", fields := Fields.unnamed ["u32", "bool"] } ] }

/-- The plain struct `S;` from the crate's compile-fail doc example. -/
def structS : DeriveInput :=
  { ident := "S"
    generics := { params := [], whereClause := none }
    data := Data.structData Fields.unit }

/-- An untagged union declaration, the other non-enum kind. -/
def unionU : DeriveInput :=
  { ident := "U"
    generics := { params := [], whereClause := none }
    data := Data.unionData [("f", "u32")] }

/-- A generic enum with a lifetime parameter, a bounded type parameter,
a const parameter and a where-clause, exercising the generics split. -/
def enumGFull : DeriveInput :=
  { ident := "G"
    generics :=
      { params :=
          [ GenericParam.lifetime "a" []
          , GenericParam.typeParam "T" ["Clone"]
          , GenericParam.constParam "N" "usize" ]
        whereClause := some ["T: Sized"] }
    data := Data.enumData [ { name := "V", fields := Fields.unnamed ["T"] } ] }

/-- The generic enum `G<T> { V(T) }` over an unconstrained parameter. -/
def enumG : DeriveInput :=
  { ident := "G"
    generics := { params := [GenericParam.typeParam "T" []], whereClause := none }
    data := Data.enumData [ { name := "V", fields := Fields.unnamed ["T"] } ] }

/-- A single-variant enum `U2 { X }` with a no-field variant. -/
def enumX : DeriveInput :=
  { ident := "U2"
    generics := { params := [], whereClause := none }
    data := Data.enumData [ { name := "X", fields := Fields.unit } ] }

/-- A declaration with the same identifier and generics as `enumX` but a
different variant shape (named fields instead of no fields). -/
def enumX2 : DeriveInput :=
  { ident := "U2"
    generics := { params := [], whereClause := none }
    data := Data.enumData
      [ { name := "Y", fields := Fields.named [("a", "i32"), ("b", "bool")] }
      , { name := "Z", fields := Fields.unnamed ["u8"] } ] }

/-- A collaborator parser that fails on its (trivial) token input. -/
def parseNone : Unit → Option DeriveInput := fun _ => none

/-- A collaborator parser that yields the well-formed declaration
`enumE` on its (trivial) token input. -/
def parseSomeE : Unit → Option DeriveInput := fun _ => some enumE

theorem evalAsBool_eqBody {α : Type} (v w : EnumValue α) :
    evalAsBool eqBody v w = some (v.tag == w.tag) := rfl

theorem derive_of_isEnum (d : DeriveInput) (h : d.data.isEnum = true) :
    derive d = Except.ok (quoteOutput d.ident d.generics) := by
  obtain ⟨i, g, dat⟩ := d
  cases dat with
  | enumData vs => rfl
  | structData fs => simp [Data.isEnum] at h
  | unionData fs => simp [Data.isEnum] at h

theorem fragmentEqBody_quoteOutput (ident : String) (g : Generics) :
    fragmentEqBody (quoteOutput ident g) = some eqBody := rfl

/-- Claim C1: for every tagged-union declaration the generator returns a
fragment whose equality operation, on any two values of the subject type
at any instantiation, returns true iff both carry the same variant tag;
the result depends on the tags only, so field values are never
consulted: same-variant values are equal and different-variant values
are unequal for all field values. -/
theorem c1_eq_iff_same_tag (d : DeriveInput) (h : d.data.isEnum = true) :
    ∃ impls body, derive d = Except.ok impls ∧ fragmentEqBody impls = some body ∧
      ∀ (α : Type) (v w : EnumValue α),
        (evalAsBool body v w = some true ↔ v.tag = w.tag) ∧
        (v.tag ≠ w.tag → evalAsBool body v w = some false) := by
  refine ⟨quoteOutput d.ident d.generics, eqBody, derive_of_isEnum d h,
    fragmentEqBody_quoteOutput d.ident d.generics, ?_⟩
  intro α v w
  constructor
  · rw [evalAsBool_eqBody]
    simp
  · intro hne
    rw [evalAsBool_eqBody]
    simp [hne]

theorem c1_witness :
    enumE.data.isEnum = true ∧
    ∃ impls body, derive enumE = Except.ok impls ∧ fragmentEqBody impls = some body ∧
      ∀ (α : Type) (v w : EnumValue α),
        (evalAsBool body v w = some true ↔ v.tag = w.tag) ∧
        (v.tag ≠ w.tag → evalAsBool body v w = some false) :=
  ⟨rfl, c1_eq_iff_same_tag enumE rfl⟩

/-- Claim C2: for every declaration whose kind is not enum, `derive`
yields exactly one failure — the unsupported-kind condition, realized by
the source's single `unimplemented!` site with its fixed message — and
returns no fragment at all (the result is an error, never `ok`). -/
theorem c2_unsupported_kind (d : DeriveInput) (h : d.data.isEnum = false) :
    derive d = Except.error (GenerationError.unimplementedPanic
      "#[derive(VariantEq)] is only defined for enums") := by
  obtain ⟨i, g, dat⟩ := d
  cases dat with
  | enumData vs => simp [Data.isEnum] at h
  | structData fs => rfl
  | unionData fs => rfl

theorem c2_witness :
    structS.data.isEnum = false ∧
    derive structS = Except.error (GenerationError.unimplementedPanic
      "#[derive(VariantEq)] is only defined for enums") :=
  ⟨rfl, c2_unsupported_kind structS rfl⟩

/-- Claim C3 (code evaluated at the failing input): on the plain struct
declaration `S;` the generator terminates through `unimplemented!`, a
panic of the macro invocation, rather than constructing and returning a
catchable error value. -/
theorem c3_panic_on_struct :
    derive structS = Except.error (GenerationError.unimplementedPanic
      "#[derive(VariantEq)] is only defined for enums") := rfl

/-- Claim C4: for every tagged-union declaration, the generated equality
is an equivalence relation at every instantiation of the subject type:
reflexive, symmetric, and transitive. -/
theorem c4_equivalence (d : DeriveInput) (h : d.data.isEnum = true) :
    ∃ impls body, derive d = Except.ok impls ∧ fragmentEqBody impls = some body ∧
      (∀ (α : Type) (v : EnumValue α), evalAsBool body v v = some true) ∧
      (∀ (α : Type) (v w : EnumValue α), evalAsBool body v w = evalAsBool body w v) ∧
      (∀ (α : Type) (u v w : EnumValue α),
        evalAsBool body u v = some true → evalAsBool body v w = some true →
          evalAsBool body u w = some true) := by
  refine ⟨quoteOutput d.ident d.generics, eqBody, derive_of_isEnum d h,
    fragmentEqBody_quoteOutput d.ident d.generics, ?_, ?_, ?_⟩
  · intro α v
    rw [evalAsBool_eqBody]
    simp
  · intro α v w
    rw [evalAsBool_eqBody, evalAsBool_eqBody]
    simp [eq_comm]
  · intro α u v w huv hvw
    rw [evalAsBool_eqBody] at huv hvw ⊢
    simp at huv hvw
    simp [huv, hvw]

theorem c4_witness :
    enumE.data.isEnum = true ∧
    ∃ impls body, derive enumE = Except.ok impls ∧ fragmentEqBody impls = some body ∧
      (∀ (α : Type) (v : EnumValue α), evalAsBool body v v = some true) ∧
      (∀ (α : Type) (v w : EnumValue α), evalAsBool body v w = evalAsBool body w v) ∧
      (∀ (α : Type) (u v w : EnumValue α),
        evalAsBool body u v = some true → evalAsBool body v w = some true →
          evalAsBool body u w = some true) :=
  ⟨rfl, c4_equivalence enumE rfl⟩

/-- Claim C5: on every tagged-union declaration, the three-way generics
split returns the parameter list with its bounds verbatim and in order,
the argument list holding exactly the bare parameter names in the same
order, and the where-clause unchanged; and every impl of the emitted
fragment is spliced with exactly these three views, naming the subject
type as the declared identifier with the arguments re-attached. -/
theorem c5_generics_roundtrip (d : DeriveInput) (h : d.data.isEnum = true) :
    d.generics.split_for_impl.1 = d.generics.params ∧
    d.generics.split_for_impl.2.2 = d.generics.whereClause ∧
    (∀ k, d.generics.split_for_impl.2.1.get? k =
      (d.generics.params.get? k).map GenericParam.argName) ∧
    ∃ impls, derive d = Except.ok impls ∧ impls ≠ [] ∧
      ∀ i ∈ impls,
        i.implGenerics = d.generics.split_for_impl.1 ∧
        i.subject = { ident := d.ident, args := d.generics.split_for_impl.2.1 } ∧
        i.whereClause = d.generics.split_for_impl.2.2 := by
  refine ⟨rfl, rfl, ?_, quoteOutput d.ident d.generics, derive_of_isEnum d h,
    by simp [quoteOutput], ?_⟩
  · intro k
    simp [Generics.split_for_impl, List.get?_eq_getElem?, List.getElem?_map]
  · intro i hi
    simp [quoteOutput] at hi
    rcases hi with hi | hi <;> subst hi <;> exact ⟨rfl, rfl, rfl⟩

theorem c5_witness :
    enumGFull.data.isEnum = true ∧
    (enumGFull.generics.split_for_impl.1 = enumGFull.generics.params ∧
    enumGFull.generics.split_for_impl.2.2 = enumGFull.generics.whereClause ∧
    (∀ k, enumGFull.generics.split_for_impl.2.1.get? k =
      (enumGFull.generics.params.get? k).map GenericParam.argName) ∧
    ∃ impls, derive enumGFull = Except.ok impls ∧ impls ≠ [] ∧
      ∀ i ∈ impls,
        i.implGenerics = enumGFull.generics.split_for_impl.1 ∧
        i.subject = { ident := enumGFull.ident
                      args := enumGFull.generics.split_for_impl.2.1 } ∧
        i.whereClause = enumGFull.generics.split_for_impl.2.2) :=
  ⟨rfl, c5_generics_roundtrip enumGFull rfl⟩

/-- Claim C6: the emitted fragment imposes no bounds beyond those of the
declaration — every impl carries exactly the declared generic parameters
— and its equality body evaluates to a boolean for every instantiation
`α` of the subject type, with no comparison capability assumed on `α`
and hence none on the variant field values. -/
theorem c6_no_field_bounds (d : DeriveInput) (h : d.data.isEnum = true) :
    ∃ impls body, derive d = Except.ok impls ∧
      (∀ i ∈ impls, i.implGenerics = d.generics.params) ∧
      fragmentEqBody impls = some body ∧
      ∀ (α : Type) (v w : EnumValue α), ∃ b, evalAsBool body v w = some b := by
  refine ⟨quoteOutput d.ident d.generics, eqBody, derive_of_isEnum d h, ?_,
    fragmentEqBody_quoteOutput d.ident d.generics, ?_⟩
  · intro i hi
    simp [quoteOutput] at hi
    rcases hi with hi | hi <;> subst hi <;> rfl
  · intro α v w
    exact ⟨v.tag == w.tag, evalAsBool_eqBody v w⟩

theorem c6_witness :
    enumG.data.isEnum = true ∧
    ∃ impls body, derive enumG = Except.ok impls ∧
      (∀ i ∈ impls, i.implGenerics = enumG.generics.params) ∧
      fragmentEqBody impls = some body ∧
      ∀ (α : Type) (v w : EnumValue α), ∃ b, evalAsBool body v w = some b :=
  ⟨rfl, c6_no_field_bounds enumG rfl⟩

/-- Claim C7: the kind check is the sole validation — every enum
declaration succeeds and yields a fragment whatever its variants look
like, and the output does not depend on the variants at all: two enum
declarations agreeing on identifier and generics produce the same
output even with entirely different variant lists. -/
theorem c7_sole_validation (d e : DeriveInput) (vs ws : List Variant)
    (h₁ : d.data = Data.enumData vs) (h₂ : e.data = Data.enumData ws)
    (hi : d.ident = e.ident) (hg : d.generics = e.generics) :
    (∃ impls, derive d = Except.ok impls) ∧ derive d = derive e := by
  have hd : d.data.isEnum = true := by rw [h₁]; rfl
  have he : e.data.isEnum = true := by rw [h₂]; rfl
  refine ⟨⟨quoteOutput d.ident d.generics, derive_of_isEnum d hd⟩, ?_⟩
  rw [derive_of_isEnum d hd, derive_of_isEnum e he, hi, hg]

theorem c7_witness :
    enumX.data = Data.enumData [ { name := "X", fields := Fields.unit } ] ∧
    enumX.ident = enumX2.ident ∧ enumX.generics = enumX2.generics ∧
    (∃ impls, derive enumX = Except.ok impls) ∧ derive enumX = derive enumX2 :=
  ⟨rfl, rfl, rfl,
    c7_sole_validation enumX enumX2
      [ { name := "X", fields := Fields.unit } ]
      [ { name := "Y", fields := Fields.named [("a", "i32"), ("b", "bool")] }
      , { name := "Z", fields := Fields.unnamed ["u8"] } ]
      rfl rfl rfl rfl⟩

/-- Claim C8: the generator is deterministic — equal input declarations
yield identical results; side-effect freedom holds by construction of
the embedding, since `derive` is a total function of its argument with
no state, I/O, or environment. -/
theorem c8_deterministic (d e : DeriveInput) (h : d = e) :
    derive d = derive e := by
  rw [h]

theorem c8_witness : derive enumE = derive enumE :=
  c8_deterministic enumE enumE rfl

/-- Claim C9: the entry point unwraps the collaborator parse, so when
the parse fails it panics (the unwrap panic) rather than returning a
generation error; and whenever the parse yields a declaration — the
spec's precondition — that panic branch is unreachable. -/
theorem c9_unwrap_panic (σ : Type) (parse2 : σ → Option DeriveInput) (tokens : σ) :
    (parse2 tokens = none →
      varianteq_derive parse2 tokens = Except.error EntryError.unwrapPanic) ∧
    (∀ d, parse2 tokens = some d →
      varianteq_derive parse2 tokens ≠ Except.error EntryError.unwrapPanic) := by
  constructor
  · intro h
    simp [varianteq_derive, h]
  · intro d h
    cases hd : derive d <;> simp [varianteq_derive, h, hd]

theorem c9_witness :
    varianteq_derive parseNone () = Except.error EntryError.unwrapPanic ∧
    varianteq_derive parseSomeE () ≠ Except.error EntryError.unwrapPanic :=
  ⟨(c9_unwrap_panic Unit parseNone ()).1 rfl,
    (c9_unwrap_panic Unit parseSomeE ()).2 enumE rfl⟩

/-- Claim C10: the accept/reject outcome depends only on whether the
declaration's kind is enum — any two declarations agreeing on that bit
(both enums, or both non-enums, struct and union alike) are accepted or
rejected alike, whatever their names, generics, or variants. -/
theorem c10_kind_only (d e : DeriveInput) (h : d.data.isEnum = e.data.isEnum) :
    generationSucceeds d = generationSucceeds e := by
  obtain ⟨i, g, dat⟩ := d
  obtain ⟨j, g2, dat2⟩ := e
  cases dat <;> cases dat2 <;>
    first
      | rfl
      | simp [Data.isEnum] at h

theorem c10_witness :
    structS.data.isEnum = unionU.data.isEnum ∧
    generationSucceeds structS = generationSucceeds unionU :=
  ⟨rfl, c10_kind_only structS unionU rfl⟩

end VariantEq
